import Mathlib

/-!
Shallow embedding of the `react-19-demo` repository (SuspenseDemo, ActivityDemo,
ViewTransitionsDemo, ServerComponentsDemo, App shell, client and server entry
points), with theorems checking the specification's claims against it.

Promises are modelled by allocation identifiers (`PromiseId`): each call to a
fetch simulator allocates a fresh identifier, so promise *identity* (`===` in
the source) is identifier equality.  The module-level `Map` caches of
`SuspenseDemo.tsx` are modelled as association lists with JavaScript `Map`
semantics (`has` / `get` / `set` / `delete`).
-/

namespace React19

/-- A promise identity: each `new Promise(...)` allocation gets a fresh one. -/
abbrev PromiseId := Nat

/-- JavaScript `Map.prototype.has` on an association list. -/
def mapHas (m : List (Nat × PromiseId)) (k : Nat) : Bool :=
  (m.lookup k).isSome

/-- JavaScript `Map.prototype.get` (returns `undefined` as `none`). -/
def mapGet (m : List (Nat × PromiseId)) (k : Nat) : Option PromiseId :=
  m.lookup k

/-- JavaScript `Map.prototype.set`: the new binding shadows any old one. -/
def mapSet (m : List (Nat × PromiseId)) (k : Nat) (v : PromiseId) :
    List (Nat × PromiseId) :=
  (k, v) :: m

/-- JavaScript `Map.prototype.delete`: removes the binding for `k` if present,
and is a no-op (raising no error) if absent. -/
def mapDelete (m : List (Nat × PromiseId)) (k : Nat) : List (Nat × PromiseId) :=
  m.filter (fun e => e.1 != k)

/-- The user payload resolved by `fetchUser` in `SuspenseDemo.tsx`. -/
structure User where
  id : Nat
  name : String
  email : String
deriving Repr, DecidableEq

/-- A post payload resolved by `fetchPosts` in `SuspenseDemo.tsx`. -/
structure Post where
  id : Nat
  title : String
deriving Repr, DecidableEq

/-- The eventual behaviour of a simulated-fetch promise: the executor passed to
`new Promise` schedules a single timer for `delayMs` milliseconds and then
settles.  `settle` is `Except.error e` only if the executor calls `reject e`. -/
structure SimPromise (α : Type) where
  delayMs : Nat
  settle : Except String α
deriving Repr

/-- `fetchUser` from `SuspenseDemo.tsx`: resolves after 1500 ms with a payload
derived from `id`; the executor never calls `reject`. -/
def fetchUser (id : Nat) : SimPromise User :=
  { delayMs := 1500
    settle := Except.ok
      { id := id
        name := "User " ++ toString id
        email := "user" ++ toString id ++ "@example.com" } }

/-- `fetchPosts` from `SuspenseDemo.tsx`: resolves after 2000 ms with three
posts derived from `userId`; the executor never calls `reject`. -/
def fetchPosts (userId : Nat) : SimPromise (List Post) :=
  { delayMs := 2000
    settle := Except.ok
      [ { id := 1, title := "Post 1 by user " ++ toString userId }
      , { id := 2, title := "Post 2 by user " ++ toString userId }
      , { id := 3, title := "Post 3 by user " ++ toString userId } ] }

/-- A product payload from `fetchServerData` in `ServerComponentsDemo.tsx`. -/
structure Product where
  id : Nat
  name : String
  price : Nat
  serverOnly : String
deriving Repr, DecidableEq

/-- The payload object `{ products: [...] }` of `fetchServerData`. -/
structure ServerData where
  products : List Product
deriving Repr, DecidableEq

/-- `fetchServerData` from `ServerComponentsDemo.tsx`: awaits a timer of
800 ms, then returns the fixed product list; the body has no throw and the
promise executor no `reject`, so the simulation always resolves. -/
def fetchServerData : SimPromise ServerData :=
  { delayMs := 800
    settle := Except.ok
      { products :=
        [ { id := 1, name := "Laptop", price := 999
            serverOnly := "Secret: Database connection string - never sent to client!" }
        , { id := 2, name := "Mouse", price := 29
            serverOnly := "Secret: API key - stays on server!" }
        , { id := 3, name := "Keyboard", price := 79
            serverOnly := "Secret: Internal server data" } ] } }

/-- Which fetch simulator a cache-missing lookup started. -/
inductive FetchKind where
  | userFetch
  | postsFetch
deriving Repr, DecidableEq

/-- Log entry for one started fetch simulation: which simulator, for which
key, which promise it allocated, and the timer delay it scheduled. -/
structure FetchStart where
  kind : FetchKind
  key : Nat
  promiseId : PromiseId
  delayMs : Nat
deriving Repr, DecidableEq

/-- The module-level mutable state of `SuspenseDemo.tsx`: the two promise
caches (`userCache`, `postsCache`), a fresh-allocation counter for promise
identities, and the append-only log of started fetch simulations. -/
structure World where
  nextId : PromiseId
  userCache : List (Nat × PromiseId)
  postsCache : List (Nat × PromiseId)
  started : List FetchStart
deriving Repr, DecidableEq

/-- Module state at load time: empty caches, no fetch started. -/
def initialWorld : World :=
  { nextId := 0, userCache := [], postsCache := [], started := [] }

/-- Calling `fetchUser(id)` at the world level: allocates a fresh promise and
logs the started simulation with its 1500 ms delay. -/
def startFetchUser (id : Nat) (w : World) : PromiseId × World :=
  (w.nextId,
    { w with
      nextId := w.nextId + 1
      started := w.started ++
        [ { kind := FetchKind.userFetch, key := id, promiseId := w.nextId
            delayMs := (fetchUser id).delayMs } ] })

/-- Calling `fetchPosts(userId)` at the world level. -/
def startFetchPosts (userId : Nat) (w : World) : PromiseId × World :=
  (w.nextId,
    { w with
      nextId := w.nextId + 1
      started := w.started ++
        [ { kind := FetchKind.postsFetch, key := userId, promiseId := w.nextId
            delayMs := (fetchPosts userId).delayMs } ] })

/-- `getUserPromise` from `SuspenseDemo.tsx`:
`if (!userCache.has(id)) userCache.set(id, fetchUser(id)); return userCache.get(id)!`. -/
def getUserPromise (id : Nat) (w : World) : PromiseId × World :=
  if mapHas w.userCache id then
    ((mapGet w.userCache id).getD 0, w)
  else
    let r := startFetchUser id w
    (r.1, { r.2 with userCache := mapSet r.2.userCache id r.1 })

/-- `getPostsPromise` from `SuspenseDemo.tsx`. -/
def getPostsPromise (userId : Nat) (w : World) : PromiseId × World :=
  if mapHas w.postsCache userId then
    ((mapGet w.postsCache userId).getD 0, w)
  else
    let r := startFetchPosts userId w
    (r.1, { r.2 with postsCache := mapSet r.2.postsCache userId r.1 })

/-- `handleChangeUser` from `SuspenseDemo.tsx`: computes `newId = userId + 1`,
evicts `newId` from both caches (`Map.delete`), and returns the new user id
that `setUserId` installs. -/
def handleChangeUser (userId : Nat) (w : World) : Nat × World :=
  let newId := userId + 1
  let w1 := { w with userCache := mapDelete w.userCache newId }
  let w2 := { w1 with postsCache := mapDelete w1.postsCache newId }
  (newId, w2)

/-- `userCache.delete(k)` as a state operation (the eviction performed by
`handleChangeUser`). -/
def evictUser (k : Nat) (w : World) : World :=
  { w with userCache := mapDelete w.userCache k }

/-- Every promise identity recorded anywhere in the world. -/
def worldIds (w : World) : List PromiseId :=
  w.userCache.map (fun e => e.2) ++ w.postsCache.map (fun e => e.2) ++
    w.started.map (fun f => f.promiseId)

/-- Well-formedness: every promise identity in the world was allocated below
the fresh counter.  Holds for `initialWorld` and is preserved by every
operation, so it holds for every reachable world. -/
def wf (w : World) : Bool :=
  (worldIds w).all (fun p => p < w.nextId)

/-- A gallery item from `ViewTransitionsDemo.tsx`. -/
structure Item where
  id : Nat
  title : String
  description : String
  image : String
deriving Repr, DecidableEq

/-- The module-level constant `items` array of `ViewTransitionsDemo.tsx`. -/
def items : List Item :=
  [ { id := 1
      title := "Mountain Vista"
      description := "A breathtaking view of snow-capped mountains at sunrise. The golden light paints the peaks in warm hues while the valleys below remain in cool shadow."
      image := "🏔️" }
  , { id := 2
      title := "Ocean Waves"
      description := "Powerful waves crash against weathered rocks on a dramatic coastline. The sea spray catches the afternoon light, creating rainbows in the mist."
      image := "🌊" }
  , { id := 3
      title := "Forest Path"
      description := "A winding trail through an ancient forest, dappled sunlight filtering through the canopy. Moss covers the ground in a soft green carpet."
      image := "🌲" }
  , { id := 4
      title := "Desert Sunset"
      description := "The vast desert landscape transforms under a spectacular sunset. Cacti stand as silhouettes against the vibrant orange and purple sky."
      image := "🏜️" } ]

/-- Observable events during one gallery interaction: the browser capturing
its before/after snapshots, and React committing the selection to the DOM. -/
inductive Ev where
  | snapshotOld
  | snapshotNew
  | domCommit (sel : Option Item)
deriving Repr, DecidableEq

/-- React-side interaction state for the gallery: the committed
`selectedItem` state, the queue of `setState` updates not yet flushed to the
DOM, and the trace of observable events so far. -/
structure UI where
  selectedItem : Option Item
  pending : List (Option Item)
  trace : List Ev
deriving Repr, DecidableEq

/-- `setSelectedItem(v)`: queues a state update; React batches it until the
next flush (end of the event handler, or an enclosing `flushSync`). -/
def setSelectedItem (v : Option Item) (u : UI) : UI :=
  { u with pending := u.pending ++ [v] }

/-- Flush the queued updates to the DOM: the last queued value wins, and one
DOM commit becomes observable.  No commit happens when nothing is queued. -/
def commitPending (u : UI) : UI :=
  match u.pending with
  | [] => u
  | q =>
    let v := q.foldl (fun _ x => x) u.selectedItem
    { selectedItem := v, pending := [], trace := u.trace ++ [Ev.domCommit v] }

/-- `flushSync(cb)` from `react-dom`: runs `cb` and forces its queued state
updates to commit to the DOM synchronously, before `flushSync` returns. -/
def flushSync (cb : UI → UI) (u : UI) : UI :=
  commitPending (cb u)

/-- `document.startViewTransition(cb)`: captures the old snapshot, runs the
callback, then captures the new snapshot. -/
def startViewTransition (cb : UI → UI) (u : UI) : UI :=
  let u1 := { u with trace := u.trace ++ [Ev.snapshotOld] }
  let u2 := cb u1
  { u2 with trace := u2.trace ++ [Ev.snapshotNew] }

/-- `handleSelect` from `ViewTransitionsDemo.tsx`, parametrised by whether the
browser exposes `document.startViewTransition`. -/
def handleSelect (hasVT : Bool) (item : Item) (u : UI) : UI :=
  if hasVT then
    startViewTransition (fun v => flushSync (setSelectedItem (some item)) v) u
  else
    setSelectedItem (some item) u

/-- `handleBack` from `ViewTransitionsDemo.tsx`. -/
def handleBack (hasVT : Bool) (u : UI) : UI :=
  if hasVT then
    startViewTransition (fun v => flushSync (setSelectedItem none) v) u
  else
    setSelectedItem none u

/-- React runs an event handler and then flushes any still-queued updates. -/
def runHandler (h : UI → UI) (u : UI) : UI :=
  commitPending (h u)

/-- A gallery UI state with the given committed selection and no history. -/
def galleryUI (sel : Option Item) : UI :=
  { selectedItem := sel, pending := [], trace := [] }

/-- What the gallery renders, from
`{selectedItem ? <DetailView item={selectedItem} .../> : <ListView .../>}`:
the detail view of the selected item, or the list view over `items`. -/
inductive GalleryView where
  | listView (xs : List Item)
  | detailView (it : Item)
deriving Repr, DecidableEq

/-- Render of `ViewTransitionsDemo`'s body for a committed selection. -/
def renderGallery : Option Item → GalleryView
  | some it => GalleryView.detailView it
  | none => GalleryView.listView items

/-- The `Tab` type of `ActivityDemo.tsx`. -/
inductive Tab where
  | video
  | comment
  | other
deriving Repr, DecidableEq

/-- Local state of `VideoPlayer` in `ActivityDemo.tsx`. -/
structure VideoState where
  currentTime : Nat
  isPlaying : Bool
deriving Repr, DecidableEq

/-- Local state of `CommentDraft` in `ActivityDemo.tsx`. -/
structure CommentState where
  text : String
  name : String
deriving Repr, DecidableEq

/-- Component state of the `ActivityDemo` tree: the container owns only
`activeTab`; the subtree states are owned by the subtrees themselves and are
carried here because the subtrees stay mounted inside `<Activity>`. -/
structure ActivityDemoState where
  activeTab : Tab
  videoState : VideoState
  commentState : CommentState
deriving Repr, DecidableEq

/-- One tick of the `setInterval` playback timer in `VideoPlayer`: only acts
while playing; wraps to 0 and pauses once the time reaches 100. -/
def videoTick (v : VideoState) : VideoState :=
  if v.isPlaying then
    if v.currentTime ≥ 100 then { currentTime := 0, isPlaying := false }
    else { v with currentTime := v.currentTime + 1 }
  else v

/-- User or timer events that can hit the `ActivityDemo` tree. -/
inductive DemoEvent where
  | switchTab (t : Tab)
  | tick
  | togglePlay
  | setVideoTime (n : Nat)
  | setText (s : String)
  | setName (s : String)
deriving Repr, DecidableEq

/-- State transition of the `ActivityDemo` tree for one event, per the
handlers in `ActivityDemo.tsx`.  Because every subtree stays mounted under
`<Activity>`, `switchTab` touches only the container's `activeTab`. -/
def step (e : DemoEvent) (s : ActivityDemoState) : ActivityDemoState :=
  match e with
  | DemoEvent.switchTab t => { s with activeTab := t }
  | DemoEvent.tick => { s with videoState := videoTick s.videoState }
  | DemoEvent.togglePlay =>
      { s with videoState := { s.videoState with isPlaying := !s.videoState.isPlaying } }
  | DemoEvent.setVideoTime n =>
      { s with videoState := { s.videoState with currentTime := n } }
  | DemoEvent.setText t =>
      { s with commentState := { s.commentState with text := t } }
  | DemoEvent.setName n =>
      { s with commentState := { s.commentState with name := n } }

/-- The dynamics of the subtree-owned state alone: identical to `step` on
every subtree event, and the identity on `switchTab`. -/
def subtreeStep (e : DemoEvent) (p : VideoState × CommentState) :
    VideoState × CommentState :=
  match e with
  | DemoEvent.switchTab _ => p
  | DemoEvent.tick => (videoTick p.1, p.2)
  | DemoEvent.togglePlay => ({ p.1 with isPlaying := !p.1.isPlaying }, p.2)
  | DemoEvent.setVideoTime n => ({ p.1 with currentTime := n }, p.2)
  | DemoEvent.setText t => (p.1, { p.2 with text := t })
  | DemoEvent.setName n => (p.1, { p.2 with name := n })

/-- The three tab panels of `ActivityDemo.tsx`. -/
inductive Panel where
  | videoPanel
  | commentPanel
  | otherPanel
deriving Repr, DecidableEq

/-- The tab-content render of `ActivityDemo`: the three `<Activity>` wrappers
are always emitted (every subtree stays mounted); each carries only the mode
flag `visible` (`true`) exactly when its tab is the active one. -/
def renderTabs (s : ActivityDemoState) : List (Bool × Panel) :=
  [ (s.activeTab = Tab.video, Panel.videoPanel)
  , (s.activeTab = Tab.comment, Panel.commentPanel)
  , (s.activeTab = Tab.other, Panel.otherPanel) ]

/-- The `Demo` union type of `App.tsx` (the variant importing
`ServerComponentsDemo`). -/
inductive Demo where
  | suspense
  | activity
  | viewtransitions
  | servercomponents
deriving Repr, DecidableEq

/-- `useState<Demo>("suspense")`: the app shell's initial demo selection. -/
def appInitialDemo : Demo :=
  Demo.suspense

/-- Each navigation button's `onClick` handler is `() => setActiveDemo(d)`:
clicking the button for `d` replaces the selection with `d`.  These handlers
are the only writers of the selection state in `App.tsx`. -/
def navClick (d : Demo) (_current : Demo) : Demo :=
  d

/-- The main content area of `App.tsx` renders, for each demo `d`, the guard
`{activeDemo === d && <DDemo />}`; collecting the four guards in order. -/
def renderMain (active : Demo) : List Demo :=
  (if active = Demo.suspense then [Demo.suspense] else []) ++
  (if active = Demo.activity then [Demo.activity] else []) ++
  (if active = Demo.viewtransitions then [Demo.viewtransitions] else []) ++
  (if active = Demo.servercomponents then [Demo.servercomponents] else [])

/-- A DOM node inside the root container, as `main.tsx` distinguishes them:
`rootElement.children` counts element nodes only, not comments or text. -/
inductive DomNode where
  | element (tag : String)
  | comment (text : String)
  | textNode (s : String)
deriving Repr, DecidableEq

/-- Is this node an element (counted by the DOM `children` collection)? -/
def isElementNode : DomNode → Bool
  | DomNode.element _ => true
  | _ => false

/-- The `#root` container the client entry point inspects. -/
structure RootContainer where
  nodes : List DomNode
deriving Repr, DecidableEq

/-- `rootElement.children.length` in `main.tsx`. -/
def childElementCount (r : RootContainer) : Nat :=
  (r.nodes.filter isElementNode).length

/-- `const hasServerContent = rootElement.children.length > 0` from
`main.tsx`. -/
def hasServerContent (r : RootContainer) : Bool :=
  childElementCount r > 0

/-- The two ways the client entry can attach to the container. -/
inductive AttachMode where
  | hydrate
  | createRootRender
deriving Repr, DecidableEq

/-- The branch taken by `main.tsx`: `hydrateRoot(...)` when the container has
server content, otherwise `createRoot(...).render(...)`. -/
def clientEntry (r : RootContainer) : AttachMode :=
  if hasServerContent r then AttachMode.hydrate else AttachMode.createRootRender

/-- Markup of the `app-header` block of `App.tsx`. -/
def headerHtml : String :=
  "<header class=\"app-header\"><h1>React 19 Features Demo</h1><p>Exploring Suspense, Activity, View Transitions, and Server Components</p></header>"

/-- Markup of one navigation button, with the `active` class exactly when the
button's demo is the selected one. -/
def navButtonHtml (active : Demo) (d : Demo) (label : String) : String :=
  "<button class=\"nav-button" ++ (if active = d then " active" else "") ++
    "\">" ++ label ++ "</button>"

/-- Markup of the `demo-nav` block of `App.tsx`. -/
def navHtml (active : Demo) : String :=
  "<nav class=\"demo-nav\">" ++
    navButtonHtml active Demo.suspense "Suspense" ++
    navButtonHtml active Demo.activity "Activity" ++
    navButtonHtml active Demo.viewtransitions "View Transitions" ++
    navButtonHtml active Demo.servercomponents "Server Components" ++
  "</nav>"

/-- The `LoadingSpinner` fallback markup of `SuspenseDemo.tsx`. -/
def spinnerHtml (label : String) : String :=
  "<div class=\"loading-spinner\"><div class=\"spinner\"></div><span>Loading " ++
    label ++ "...</span></div>"

/-- Markup of the `SuspenseDemo` subtree during a synchronous render pass.
Rendering it requests the user and posts promises for the current `userId`
(initially 1); both promises are pending during the pass (their timers have
strictly positive delays), so the outer suspense boundary renders its
fallback spinner. -/
def suspenseDemoHtml (w : World) : String × World :=
  let r1 := getUserPromise 1 w
  let r2 := getPostsPromise 1 r1.2
  ("<div class=\"demo-section\"><h2>Suspense Demo</h2>" ++
     "<button class=\"demo-button\">Load User 2</button>" ++
     "<div class=\"suspense-container\">" ++ spinnerHtml "user" ++ "</div></div>",
   r2.2)

/-- Markup of the `ActivityDemo` subtree (its initial render: `video` tab
active, all three panels mounted). -/
def activityDemoHtml : String :=
  "<div class=\"demo-section\"><h2>Activity Demo</h2><div class=\"tab-bar\"></div><div class=\"tab-content\"></div></div>"

/-- Markup of the `ViewTransitionsDemo` subtree (initial render: list view). -/
def viewTransitionsDemoHtml : String :=
  "<div class=\"demo-section\"><h2>View Transitions Demo</h2><div class=\"transition-container\"><div class=\"list-view\"></div></div></div>"

/-- Markup of the `ServerComponentsDemo` subtree (initial render:
`showDemo = false`, so only the static description is emitted). -/
def serverComponentsDemoHtml : String :=
  "<div class=\"demo-section\"><h2>React Server Components Demo</h2></div>"

/-- The `demo-content` area: exactly the subtree of the selected demo. -/
def mainHtml (active : Demo) (w : World) : String × World :=
  match active with
  | Demo.suspense => suspenseDemoHtml w
  | Demo.activity => (activityDemoHtml, w)
  | Demo.viewtransitions => (viewTransitionsDemoHtml, w)
  | Demo.servercomponents => (serverComponentsDemoHtml, w)

/-- `renderToString(<StrictMode><App /></StrictMode>)` for a given demo
selection: the app shell (header, nav, main) around the selected subtree. -/
def appHtml (active : Demo) (w : World) : String × World :=
  let m := mainHtml active w
  ("<div class=\"app\">" ++ headerHtml ++ navHtml active ++
     "<main class=\"demo-content\">" ++ m.1 ++ "</main></div>",
   m.2)

/-- The object returned by `render` in `entry-server.tsx`: `{ html }`.  The
`head` property is absent in the source (the serving layer reads
`rendered.head ?? \x22\x22`), modelled as `none`. -/
structure RenderResult where
  html : String
  head : Option String
deriving Repr, DecidableEq

/-- `render(_url, _ssrManifest)` from `entry-server.tsx`: ignores both
arguments and synchronously renders the app with its initial state
(`activeDemo = "suspense"`), returning `{ html }`. -/
def render (_url : String) (_ssrManifest : Option String) (w : World) :
    RenderResult × World :=
  let r := appHtml appInitialDemo w
  ({ html := r.1, head := none }, r.2)

/-! ### Helper lemmas about the JavaScript `Map` model -/

theorem mapGet_set_self (m : List (Nat × PromiseId)) (k : Nat) (v : PromiseId) :
    mapGet (mapSet m k v) k = some v := by
  simp [mapGet, mapSet, List.lookup]

theorem mapHas_set_self (m : List (Nat × PromiseId)) (k : Nat) (v : PromiseId) :
    mapHas (mapSet m k v) k = true := by
  simp [mapHas, mapSet, List.lookup]

theorem mapHas_delete_self (m : List (Nat × PromiseId)) (k : Nat) :
    mapHas (mapDelete m k) k = false := by
  simp [mapHas, mapDelete]
  exact fun a b _ hak hka => hak hka.symm

theorem mapDelete_of_not_has (m : List (Nat × PromiseId)) (k : Nat)
    (h : mapHas m k = false) : mapDelete m k = m := by
  simp [mapHas] at h
  simp [mapDelete]
  exact fun a b hm hak => h a b hm hak.symm

/-! ### Claim C1: the promise cache is idempotent on a live key -/

/-- C1.  For every key `k` and every cache state, two consecutive
`getUserPromise(k)` (resp. `getPostsPromise(k)`) calls with no intervening
eviction return the same promise identity; the second call leaves the module
state completely unchanged (so no second fetch simulation starts), and the
first call starts at most one fetch simulation for the key. -/
theorem promise_cache_idempotent_on_live_key (k : Nat) (w : World) :
    (getUserPromise k (getUserPromise k w).2).1 = (getUserPromise k w).1 ∧
    (getUserPromise k (getUserPromise k w).2).2 = (getUserPromise k w).2 ∧
    (getPostsPromise k (getPostsPromise k w).2).1 = (getPostsPromise k w).1 ∧
    (getPostsPromise k (getPostsPromise k w).2).2 = (getPostsPromise k w).2 ∧
    (getUserPromise k w).2.started.length ≤ w.started.length + 1 ∧
    (getPostsPromise k w).2.started.length ≤ w.started.length + 1 := by
  refine ⟨?_, ?_, ?_, ?_, ?_, ?_⟩
  all_goals
    first
    | (by_cases h : mapHas w.userCache k = true
       · simp [getUserPromise, h]
       · simp only [Bool.not_eq_true] at h
         simp [getUserPromise, h, startFetchUser, mapHas_set_self, mapGet_set_self])
    | (by_cases h : mapHas w.postsCache k = true
       · simp [getPostsPromise, h]
       · simp only [Bool.not_eq_true] at h
         simp [getPostsPromise, h, startFetchPosts, mapHas_set_self, mapGet_set_self])

/-! ### Claim C2: after eviction the next lookup starts a fresh promise -/

theorem mem_of_mapGet_eq_some {m : List (Nat × PromiseId)} {k : Nat}
    {v : PromiseId} (h : mapGet m k = some v) : (k, v) ∈ m := by
  simp only [mapGet] at h
  rcases List.lookup_eq_some_iff.mp h with ⟨l1, l2, rfl, -⟩
  simp

/-- C2.  From any well-formed module state: evicting `k` removes the entry
unconditionally (and is the identity when no entry exists, raising no error);
the next `getUserPromise(k)` then returns a promise identity different from
every promise ever created before — in particular from the one previously
cached under `k` — and appends a fresh fetch-simulation start for `k` with
the full 1500 ms delay.  Well-formedness is preserved.  `handleChangeUser`
evicts exactly the incremented user id from both caches. -/
theorem promise_cache_evict_fresh (k uid : Nat) (w : World)
    (hw : wf w = true) :
    mapHas (evictUser k w).userCache k = false ∧
    (mapHas w.userCache k = true ∨ mapDelete w.userCache k = w.userCache) ∧
    ((w.started.map (fun f => f.promiseId)).all
      (fun q => q != (getUserPromise k (evictUser k w)).1)) = true ∧
    (Option.all (fun q => q != (getUserPromise k (evictUser k w)).1)
      (mapGet w.userCache k)) = true ∧
    (getUserPromise k (evictUser k w)).2.started
      = w.started ++
          [⟨FetchKind.userFetch, k, (getUserPromise k (evictUser k w)).1, 1500⟩] ∧
    wf (getUserPromise k (evictUser k w)).2 = true ∧
    (handleChangeUser uid w).1 = uid + 1 ∧
    mapHas (handleChangeUser uid w).2.userCache (uid + 1) = false ∧
    mapHas (handleChangeUser uid w).2.postsCache (uid + 1) = false := by
  have hmiss := mapHas_delete_self w.userCache k
  have hp1 : (getUserPromise k (evictUser k w)).1 = w.nextId := by
    simp [getUserPromise, evictUser, hmiss, startFetchUser]
  have hst : (getUserPromise k (evictUser k w)).2 =
      ⟨w.nextId + 1, (k, w.nextId) :: mapDelete w.userCache k, w.postsCache,
        w.started ++ [⟨FetchKind.userFetch, k, w.nextId, 1500⟩]⟩ := by
    simp [getUserPromise, evictUser, hmiss, startFetchUser, mapSet, fetchUser]
  simp [wf, worldIds, List.all_eq_true] at hw
  obtain ⟨hu, hp, hs⟩ := hw
  refine ⟨hmiss, ?_, ?_, ?_, ?_, ?_, rfl, ?_, ?_⟩
  · by_cases hk : mapHas w.userCache k = true
    · exact Or.inl hk
    · exact Or.inr (mapDelete_of_not_has _ _ (by simpa using hk))
  · rw [hp1]
    simp [List.all_eq_true]
    intro a ha
    exact Nat.ne_of_lt (hs a ha)
  · rw [hp1]
    cases hmg : mapGet w.userCache k with
    | none => rfl
    | some old =>
      have hlt := hu old k (mem_of_mapGet_eq_some hmg)
      simp [Option.all]
      exact Nat.ne_of_lt hlt
  · rw [hst, hp1]
  · rw [hst]
    simp [wf, worldIds, List.all_eq_true]
    refine ⟨?_, fun x x1 hm => Nat.lt_succ_of_lt (hp x x1 hm),
      fun a ha => Nat.lt_succ_of_lt (hs a ha)⟩
    intro x x1 hm
    simp only [mapDelete] at hm
    exact Nat.lt_succ_of_lt (hu x x1 (List.mem_of_mem_filter hm))
  · simp [handleChangeUser, mapHas_delete_self]
  · simp [handleChangeUser, mapHas_delete_self]

/-- Witness for C2 at `k = 2`, `uid = 1`, from module-load state. -/
theorem promise_cache_evict_fresh_witness :
    wf initialWorld = true ∧
    (mapHas (evictUser 2 initialWorld).userCache 2 = false ∧
     (mapHas initialWorld.userCache 2 = true ∨
       mapDelete initialWorld.userCache 2 = initialWorld.userCache) ∧
     ((initialWorld.started.map (fun f => f.promiseId)).all
       (fun q => q != (getUserPromise 2 (evictUser 2 initialWorld)).1)) = true ∧
     (Option.all (fun q => q != (getUserPromise 2 (evictUser 2 initialWorld)).1)
       (mapGet initialWorld.userCache 2)) = true ∧
     (getUserPromise 2 (evictUser 2 initialWorld)).2.started
       = initialWorld.started ++
           [⟨FetchKind.userFetch, 2,
             (getUserPromise 2 (evictUser 2 initialWorld)).1, 1500⟩] ∧
     wf (getUserPromise 2 (evictUser 2 initialWorld)).2 = true ∧
     (handleChangeUser 1 initialWorld).1 = 1 + 1 ∧
     mapHas (handleChangeUser 1 initialWorld).2.userCache (1 + 1) = false ∧
     mapHas (handleChangeUser 1 initialWorld).2.postsCache (1 + 1) = false) :=
  ⟨rfl, promise_cache_evict_fresh 2 1 initialWorld rfl⟩

/-! ### Claim C3: the client entry branches only on existing root content -/

/-- C3.  The client entry point's hydrate-vs-fresh-render branch is a
function of the container's element-children count alone: it hydrates
exactly when at least one child element exists, performs a full render into
an empty container, and any two containers agreeing on `hasServerContent`
get the same branch (no other input influences it). -/
theorem client_entry_branch_by_server_content (r r2 : RootContainer)
    (h : hasServerContent r = hasServerContent r2) :
    clientEntry r =
      (if 0 < (r.nodes.filter isElementNode).length then AttachMode.hydrate
       else AttachMode.createRootRender) ∧
    (clientEntry r = AttachMode.hydrate ↔ hasServerContent r = true) ∧
    clientEntry { nodes := [] } = AttachMode.createRootRender ∧
    clientEntry r = clientEntry r2 := by
  refine ⟨?_, ?_, rfl, ?_⟩
  · by_cases h0 : 0 < (r.nodes.filter isElementNode).length <;>
      simp [clientEntry, hasServerContent, childElementCount, h0]
  · by_cases hc : hasServerContent r = true
    · simp [clientEntry, hc]
    · simp only [Bool.not_eq_true] at hc
      simp [clientEntry, hc]
  · simp [clientEntry, h]

/-- Witness for C3: a server-rendered container (one element child) and a
container whose element child sits behind a comment node take the same
branch. -/
theorem client_entry_branch_witness :
    hasServerContent { nodes := [DomNode.element "div"] } =
      hasServerContent
        { nodes := [DomNode.comment "app-html", DomNode.element "main"] } ∧
    (clientEntry { nodes := [DomNode.element "div"] } =
      (if 0 < (RootContainer.nodes { nodes := [DomNode.element "div"] }
          |>.filter isElementNode).length then AttachMode.hydrate
       else AttachMode.createRootRender) ∧
    (clientEntry { nodes := [DomNode.element "div"] } = AttachMode.hydrate ↔
      hasServerContent { nodes := [DomNode.element "div"] } = true) ∧
    clientEntry { nodes := [] } = AttachMode.createRootRender ∧
    clientEntry { nodes := [DomNode.element "div"] } =
      clientEntry
        { nodes := [DomNode.comment "app-html", DomNode.element "main"] }) :=
  ⟨rfl, client_entry_branch_by_server_content _ _ rfl⟩

/-! ### Claim C4: transitions use the capability with a synchronous flush -/

/-- C4.  For both gallery transitions (select and back): when
`document.startViewTransition` exists, the selection mutation commits to the
DOM synchronously inside the transition callback — strictly between the old
and new snapshot captures; when it does not exist, the mutation is a plain
batched update committed with no snapshot events at all.  The resulting
selection state is identical in both cases. -/
theorem view_transition_sync_mutation (hasVT : Bool) (it : Item)
    (s : Option Item) :
    (runHandler (handleSelect hasVT it) (galleryUI s)).selectedItem = some it ∧
    (runHandler (handleBack hasVT) (galleryUI s)).selectedItem = none ∧
    (runHandler (handleSelect hasVT it) (galleryUI s)).trace =
      (if hasVT then [Ev.snapshotOld, Ev.domCommit (some it), Ev.snapshotNew]
       else [Ev.domCommit (some it)]) ∧
    (runHandler (handleBack hasVT) (galleryUI s)).trace =
      (if hasVT then [Ev.snapshotOld, Ev.domCommit none, Ev.snapshotNew]
       else [Ev.domCommit none]) ∧
    (runHandler (handleSelect true it) (galleryUI s)).selectedItem =
      (runHandler (handleSelect false it) (galleryUI s)).selectedItem ∧
    (runHandler (handleBack true) (galleryUI s)).selectedItem =
      (runHandler (handleBack false) (galleryUI s)).selectedItem := by
  cases hasVT <;>
    simp [runHandler, handleSelect, handleBack, startViewTransition, flushSync,
      setSelectedItem, commitPending, galleryUI]

/-! ### Claim C8: list → detail → list round trip loses no item data -/

/-- C8.  Selecting any gallery item and navigating back (with or without the
animation capability, independently for the two steps) restores a list view
rendering exactly the constant `items` array — the same view as before the
selection, with all four items intact. -/
theorem gallery_roundtrip_preserves_items (hVT hVT2 : Bool) (it : Item) :
    (runHandler (handleBack hVT2)
      (runHandler (handleSelect hVT it) (galleryUI none))).selectedItem
        = none ∧
    renderGallery (runHandler (handleBack hVT2)
      (runHandler (handleSelect hVT it) (galleryUI none))).selectedItem
      = renderGallery (galleryUI none).selectedItem ∧
    renderGallery (runHandler (handleBack hVT2)
      (runHandler (handleSelect hVT it) (galleryUI none))).selectedItem
      = GalleryView.listView items ∧
    items.length = 4 := by
  cases hVT <;> cases hVT2 <;>
    simp [runHandler, handleSelect, handleBack, startViewTransition, flushSync,
      setSelectedItem, commitPending, galleryUI, renderGallery, items]

/-! ### Claim C5: hidden subtrees stay mounted and keep their state -/

theorem activity_subtree_fold (s : ActivityDemoState) (evs : List DemoEvent) :
    ((evs.foldl (fun st e => step e st) s).videoState,
     (evs.foldl (fun st e => step e st) s).commentState)
      = evs.foldl (fun p e => subtreeStep e p) (s.videoState, s.commentState) := by
  induction evs generalizing s with
  | nil => rfl
  | cons e t ih =>
    simp only [List.foldl_cons]
    rw [ih]
    have he : ((step e s).videoState, (step e s).commentState)
        = subtreeStep e (s.videoState, s.commentState) := by
      cases e <;> rfl
    rw [he]

/-- C5.  The tab container always mounts all three panels, each wrapped in an
`Activity` whose mode is visible exactly when its tab is active; switching
tabs never touches the subtree-owned state, so over any event sequence the
subtree state evolves exactly as if the switches were absent, and a
round trip A → B → A leaves the playback and draft state of every subtree
untouched while activating A. -/
theorem activity_keeps_subtrees_mounted (s : ActivityDemoState)
    (evs : List DemoEvent) (a b : Tab) :
    ((renderTabs s).map (fun e => e.2))
      = [Panel.videoPanel, Panel.commentPanel, Panel.otherPanel] ∧
    ((renderTabs s).map (fun e => e.1))
      = [decide (s.activeTab = Tab.video), decide (s.activeTab = Tab.comment),
         decide (s.activeTab = Tab.other)] ∧
    ((evs.foldl (fun st e => step e st) s).videoState,
     (evs.foldl (fun st e => step e st) s).commentState)
      = evs.foldl (fun p e => subtreeStep e p) (s.videoState, s.commentState) ∧
    (step (DemoEvent.switchTab a) (step (DemoEvent.switchTab b)
      (step (DemoEvent.switchTab a) s))).videoState = s.videoState ∧
    (step (DemoEvent.switchTab a) (step (DemoEvent.switchTab b)
      (step (DemoEvent.switchTab a) s))).commentState = s.commentState ∧
    (step (DemoEvent.switchTab a) (step (DemoEvent.switchTab b)
      (step (DemoEvent.switchTab a) s))).activeTab = a :=
  ⟨rfl, rfl, activity_subtree_fold s evs, rfl, rfl, rfl⟩

/-! ### Claim C6: the demo selection state and the content area -/

/-- C6.  The app shell's selection ranges over exactly the four demo values,
is initialised to `suspense`, is written only by the navigation click
handlers (each setting its own demo), and the main content area renders
exactly the one subtree matching the current selection. -/
theorem app_demo_selection (d cur : Demo) :
    (d = Demo.suspense ∨ d = Demo.activity ∨ d = Demo.viewtransitions ∨
      d = Demo.servercomponents) ∧
    appInitialDemo = Demo.suspense ∧
    navClick d cur = d ∧
    renderMain d = [d] := by
  refine ⟨?_, rfl, rfl, ?_⟩ <;> cases d <;> simp [renderMain]

/-! ### Claim C7: the server entry produces the shell plus the default demo -/

/-- C7.  For every route and manifest argument and module state, `render`
synchronously returns the markup of the app shell wrapped around the
default-selected (`suspense`) demo subtree, with no head fragment (the
optional field is absent); every fetch simulation it starts during the pass
carries a strictly positive delay, so nothing settles — and no timer
callback runs — within the synchronous render pass, which starts at most the
two suspense-demo fetches. -/
theorem server_render_shell_plus_default (url : String)
    (manifest : Option String) (w : World) :
    (render url manifest w).1.html = (appHtml appInitialDemo w).1 ∧
    appInitialDemo = Demo.suspense ∧
    (appHtml Demo.suspense w).1
      = "<div class=\"app\">" ++ headerHtml ++ navHtml Demo.suspense ++
          "<main class=\"demo-content\">" ++ (suspenseDemoHtml w).1 ++
          "</main></div>" ∧
    (render url manifest w).1.head = none ∧
    (((render url manifest w).2.started.drop w.started.length).all
      (fun f => decide (0 < f.delayMs))) = true ∧
    (render url manifest w).2.started.length ≤ w.started.length + 2 := by
  refine ⟨rfl, rfl, rfl, rfl, ?_, ?_⟩ <;>
  · by_cases h1 : mapHas w.userCache 1 = true <;>
      by_cases h2 : mapHas w.postsCache 1 = true <;>
      simp [render, appHtml, mainHtml, suspenseDemoHtml, appInitialDemo,
        getUserPromise, getPostsPromise, h1, h2, startFetchUser,
        startFetchPosts, fetchUser, fetchPosts, mapSet,
        List.drop_left, List.drop_length]

/-! ### Claim C9: fetch simulations always resolve, never reject -/

/-- C9.  Each fetch simulator resolves after its fixed delay with the
deterministic payload derived from its key, and none has a rejection path:
the settlement is `Except.ok` for every input. -/
theorem fetch_simulations_never_reject (id userId : Nat) :
    (fetchUser id).settle = Except.ok
      { id := id, name := "User " ++ toString id
        email := "user" ++ toString id ++ "@example.com" } ∧
    (fetchUser id).delayMs = 1500 ∧
    (fetchPosts userId).settle = Except.ok
      [ { id := 1, title := "Post 1 by user " ++ toString userId }
      , { id := 2, title := "Post 2 by user " ++ toString userId }
      , { id := 3, title := "Post 3 by user " ++ toString userId } ] ∧
    (fetchPosts userId).delayMs = 2000 ∧
    fetchServerData.settle = Except.ok
      { products :=
        [ { id := 1, name := "Laptop", price := 999
            serverOnly := "Secret: Database connection string - never sent to client!" }
        , { id := 2, name := "Mouse", price := 29
            serverOnly := "Secret: API key - stays on server!" }
        , { id := 3, name := "Keyboard", price := 79
            serverOnly := "Secret: Internal server data" } ] } ∧
    fetchServerData.delayMs = 800 ∧
    ((fetchUser id).settle.isOk ∧ (fetchPosts userId).settle.isOk ∧
      fetchServerData.settle.isOk) :=
  ⟨rfl, rfl, rfl, rfl, rfl, rfl, rfl, rfl, rfl⟩

/-! ### Claim C10: the server render ignores both of its arguments -/

/-- C10.  From the same module state, `render` returns the identical result
for any two pairs of arguments — the route indicator and manifest have no
influence on the markup — and the head fragment is always absent. -/
theorem server_render_argument_insensitive (u1 u2 : String)
    (m1 m2 : Option String) (w : World) :
    render u1 m1 w = render u2 m2 w ∧ (render u1 m1 w).1.head = none :=
  ⟨rfl, rfl⟩

end React19
